import Mathlib

/-!
Shallow embedding of `src/main.py` of the bigquery-logcollector repository.

Python machine floats are modelled as exact rationals (`ℚ`); the values the
program manipulates (prices times byte counts divided by `2 ^ 40`) are exactly
representable binary fractions in the relevant tie cases, so the rounding
behaviour of `round(x, 2)` (round-half-to-even on the exact value) is captured
faithfully.  Python `None` is modelled by `Option.none`, raised exceptions by
`Except.error`.
-/

/-- Python `round(q)` to an integer: nearest integer, ties to even
(banker's rounding), applied to the exact value of `q`. -/
def roundHalfEven (q : ℚ) : ℤ :=
  if q - (⌊q⌋ : ℚ) < 1 / 2 then ⌊q⌋
  else if 1 / 2 < q - (⌊q⌋ : ℚ) then ⌊q⌋ + 1
  else if ⌊q⌋ % 2 = 0 then ⌊q⌋ else ⌊q⌋ + 1

/-- Python `round(q, 2)`: round to two decimal places, ties to even. -/
def pyRound2 (q : ℚ) : ℚ := (roundHalfEven (q * 100) : ℚ) / 100

/-- Embeds `JobStatistics2.calculate_billed_cost` (src/main.py lines 34-41).
`per_terabyte_cost` is assigned only for the two known regions; any other
region leaves it unbound and the `return` line raises `UnboundLocalError`,
modelled as `Except.error ()`. -/
def calculate_billed_cost (totalBytesBilled : ℤ) (region : String) : Except Unit ℚ :=
  if region = "asia-northeast1" then
    Except.ok (pyRound2 (6 * (totalBytesBilled : ℚ) / 2 ^ 40))
  else if region = "us-west1" then
    Except.ok (pyRound2 (5 * (totalBytesBilled : ℚ) / 2 ^ 40))
  else
    Except.error ()

/-- Embeds the `billed_cost` computation of `JobStatistics2.__init__`
(src/main.py lines 29-32): `billed_cost = 0.0`, overwritten by
`calculate_billed_cost` only when `totalBytesBilled` is truthy (non-zero).
The source calls `calculate_billed_cost` without a `region` argument, so the
running program always uses the default region `"asia-northeast1"`; the region
is kept as a parameter here so that the dependence on the price table can be
stated. -/
def jobStatistics2_billed_cost (totalBytesBilled : ℤ) (region : String) : Except Unit ℚ :=
  if totalBytesBilled ≠ 0 then calculate_billed_cost totalBytesBilled region
  else Except.ok 0

/-- Spec-side cost ("standard rounding", i.e. round half away from zero /
half up for the non-negative values at hand) for the default region:
`round(6.0 * b / 2 ^ 40, 2)` with ties rounded up. -/
def specCostStd (b : ℕ) : ℚ :=
  ((⌊6 * (b : ℚ) / 2 ^ 40 * 100 + 1 / 2⌋ : ℤ) : ℚ) / 100

/-- Spec-side cost for the default region with ties rounded to even, the rule
the source actually implements via Python `round`. -/
def specCostEven (b : ℕ) : ℚ := ((roundHalfEven (6 * (b : ℚ) / 2 ^ 40 * 100) : ℤ) : ℚ) / 100

lemma roundHalfEven_nonneg (q : ℚ) (hq : 0 ≤ q) : 0 ≤ roundHalfEven q := by
  have hf : (0 : ℤ) ≤ ⌊q⌋ := by
    rw [Int.le_floor]
    exact_mod_cast hq
  unfold roundHalfEven
  split_ifs <;> omega

example : calculate_billed_cost (3 * 2 ^ 36) "asia-northeast1" = Except.ok (28 / 25) := by
  norm_num [calculate_billed_cost, pyRound2, roundHalfEven]
example : specCostStd (3 * 2 ^ 36) = 113 / 100 := by norm_num [specCostStd]
example : specCostEven (2 ^ 40) = 6 := by norm_num [specCostEven, roundHalfEven]

/-- Decimal digits of `n`, least significant first, computed exactly the way
Python `str` renders a non-negative integer (so `0` renders as `"0"`).  The
first argument is recursion fuel; `n + 1` is always enough. -/
def decRevAux : Nat → Nat → List Nat
  | 0, _ => []
  | fuel + 1, n => if n < 10 then [n] else n % 10 :: decRevAux fuel (n / 10)

/-- Decimal digits of `n`, least significant first. -/
def decRev (n : Nat) : List Nat := decRevAux (n + 1) n

/-- The character list of Python `str(n)` for a natural number `n`. -/
def natToDecChars (n : Nat) : List Char := ((decRev n).map Nat.digitChar).reverse

/-- Python `str(n)` for a natural number `n`. -/
def natToDecString (n : Nat) : String := String.mk (natToDecChars n)

/-- Python `int(s)` on a string of decimal digit characters. -/
def parseDecChars (cs : List Char) : Nat := cs.foldl (fun a c => 10 * a + (c.toNat - 48)) 0

/-- Gregorian date (year, month, day) for a count of days since 1970-01-01,
the classic days-to-civil conversion used by `datetime.utcfromtimestamp`. -/
def civilFromDays (z : Nat) : Nat × Nat × Nat :=
  let z2 := z + 719468
  let era := z2 / 146097
  let doe := z2 % 146097
  let yoe := (doe - doe / 1460 + doe / 36524 - doe / 146096) / 365
  let y := yoe + era * 400
  let doy := doe - (365 * yoe + yoe / 4 - yoe / 100)
  let mp := (5 * doy + 2) / 153
  let d := doy - (153 * mp + 2) / 5 + 1
  let m := if mp < 10 then mp + 3 else mp - 9
  (if m ≤ 2 then y + 1 else y, m, d)

/-- Two-digit zero padding, as in `datetime.isoformat`. -/
def pad2 (n : Nat) : String := if n < 10 then "0" ++ natToDecString n else natToDecString n

/-- Embeds `datetime.datetime.utcfromtimestamp(secs).isoformat()` for a
non-negative whole-second epoch timestamp (microsecond is `0`, so no fraction
is printed). -/
def isoformatUtc (secs : Nat) : String :=
  let days := secs / 86400
  let rem := secs % 86400
  let ymd := civilFromDays days
  natToDecString ymd.1 ++ "-" ++ pad2 ymd.2.1 ++ "-" ++ pad2 ymd.2.2 ++ "T" ++
    pad2 (rem / 3600) ++ ":" ++ pad2 (rem % 3600 / 60) ++ ":" ++ pad2 (rem % 60)

/-- Embeds `JobStatistics.micro_epochtime_to_isoformat` (src/main.py lines
57-61): `str(t)[-3:]` is the fraction, `int(str(t)[:-3])` the whole seconds,
joined by `'.'`.  For `t < 1000` the seconds slice is the empty string and
`int('')` raises `ValueError`, modelled as `none`. -/
def micro_epochtime_to_isoformat (t : Nat) : Option String :=
  if ((natToDecChars t).take ((natToDecChars t).length - 3)).isEmpty then none
  else some
    (isoformatUtc (parseDecChars ((natToDecChars t).take ((natToDecChars t).length - 3))) ++
      "." ++ String.mk ((natToDecChars t).drop ((natToDecChars t).length - 3)))

/-- Three-digit zero-padded decimal rendering of `n < 1000`, the spec's
"last three decimal digits as the millisecond fraction". -/
def pad3 (n : Nat) : String :=
  String.mk [Nat.digitChar (n / 100 % 10), Nat.digitChar (n / 10 % 10), Nat.digitChar (n % 10)]

/-- Spec-side `logged_at`: the UTC ISO-8601 datetime of the whole seconds
`t / 1000`, joined by `'.'` with the three-digit millisecond fraction
`t % 1000`. -/
def specLoggedAt (t : Nat) : String := isoformatUtc (t / 1000) ++ "." ++ pad3 (t % 1000)

lemma decRevAux_eq_digits :
    ∀ (fuel n : ℕ), 0 < n → n < fuel → decRevAux fuel n = Nat.digits 10 n := by
  intro fuel
  induction fuel with
  | zero => intro n h1 h2; omega
  | succ f ih =>
    intro n h1 h2
    simp only [decRevAux]
    by_cases hlt : n < 10
    · rw [if_pos hlt, Nat.digits_of_lt 10 n (by omega) hlt]
    · rw [if_neg hlt, ih (n / 10) (by omega) (by omega),
        Nat.digits_def' (show (1:ℕ) < 10 by norm_num) h1]

lemma decRev_eq_digits (n : ℕ) (hn : 0 < n) : decRev n = Nat.digits 10 n :=
  decRevAux_eq_digits (n + 1) n hn (by omega)

lemma decRev_ne_nil (n : ℕ) : decRev n ≠ [] := by
  unfold decRev decRevAux
  by_cases h : n < 10 <;> simp [h]

lemma natToDecChars_split (t : ℕ) (h : 1000 ≤ t) :
    natToDecChars t = natToDecChars (t / 1000) ++
      [Nat.digitChar (t / 100 % 10), Nat.digitChar (t / 10 % 10), Nat.digitChar (t % 10)] := by
  have e1 : Nat.digits 10 t = t % 10 :: Nat.digits 10 (t / 10) :=
    Nat.digits_def' (by norm_num) (by omega)
  have e2 : Nat.digits 10 (t / 10) = t / 10 % 10 :: Nat.digits 10 (t / 10 / 10) :=
    Nat.digits_def' (by norm_num) (by omega)
  have e3 : Nat.digits 10 (t / 10 / 10) = t / 10 / 10 % 10 :: Nat.digits 10 (t / 10 / 10 / 10) :=
    Nat.digits_def' (by norm_num) (by omega)
  have d2 : t / 10 / 10 = t / 100 := by omega
  have d3 : t / 10 / 10 / 10 = t / 1000 := by omega
  unfold natToDecChars
  rw [decRev_eq_digits t (by omega), decRev_eq_digits (t / 1000) (by omega), e1, e2, e3, d3, d2]
  simp

lemma digitChar_toNat_sub (d : ℕ) (h : d < 10) : (Nat.digitChar d).toNat - 48 = d := by
  interval_cases d <;> rfl

lemma parse_rev_map (l : List ℕ) (h : ∀ d ∈ l, d < 10) :
    parseDecChars ((l.map Nat.digitChar).reverse) = Nat.ofDigits 10 l := by
  induction l with
  | nil => rfl
  | cons d ds ih =>
    have hd : d < 10 := h d (by simp)
    have hds : ∀ x ∈ ds, x < 10 := fun x hx => h x (by simp [hx])
    simp only [List.map_cons, List.reverse_cons]
    unfold parseDecChars
    rw [List.foldl_append]
    have := ih hds
    unfold parseDecChars at this
    rw [this, Nat.ofDigits_cons]
    simp [digitChar_toNat_sub d hd]
    ring

lemma parse_natToDecChars (m : ℕ) (hm : 0 < m) : parseDecChars (natToDecChars m) = m := by
  unfold natToDecChars
  rw [decRev_eq_digits m hm,
    parse_rev_map _ (fun d hd => Nat.digits_lt_base (by norm_num) hd),
    Nat.ofDigits_digits]

example : specLoggedAt 1620000000123 = "2021-05-03T00:00:00.123" := by decide
example : micro_epochtime_to_isoformat 2000 = some "1970-01-01T00:00:02.000" := by decide
example : micro_epochtime_to_isoformat 999 = none := by decide

/-- C5: for every creation timestamp with at least four decimal digits (so the
seconds slice is non-empty, the domain on which the split into "all but the
last three decimal digits" and "the last three decimal digits" is defined),
the derived `logged_at` string is the UTC ISO-8601 datetime of the whole
seconds `t / 1000` joined by `'.'` with the three-digit millisecond fraction
`t % 1000`. -/
theorem logged_at_digit_split (t : ℕ) (h : 1000 ≤ t) :
    micro_epochtime_to_isoformat t = some (specLoggedAt t) := by
  have hsplit := natToDecChars_split t h
  have hlen3 : (natToDecChars (t / 1000) ++
      [Nat.digitChar (t / 100 % 10), Nat.digitChar (t / 10 % 10),
        Nat.digitChar (t % 10)]).length - 3 = (natToDecChars (t / 1000)).length := by
    simp
  have hne : natToDecChars (t / 1000) ≠ [] := by
    unfold natToDecChars
    simp [decRev_ne_nil]
  have m1 : t % 1000 / 100 % 10 = t / 100 % 10 := by omega
  have m2 : t % 1000 / 10 % 10 = t / 10 % 10 := by omega
  have m3 : t % 1000 % 10 = t % 10 := by omega
  unfold micro_epochtime_to_isoformat
  rw [hsplit, hlen3, List.take_left, List.drop_left, if_neg (by simp [hne]),
    parse_natToDecChars (t / 1000) (by omega)]
  unfold specLoggedAt pad3
  rw [m1, m2, m3]

/-- C5 witness: `creationTime = 1620000000123` is mapped to a `logged_at`
beginning `2021-05-03T` with fractional suffix `.123`. -/
theorem logged_at_digit_split_witness :
    micro_epochtime_to_isoformat 1620000000123 = some (specLoggedAt 1620000000123) ∧
      specLoggedAt 1620000000123 = "2021-05-03T00:00:00.123" :=
  ⟨logged_at_digit_split 1620000000123 (by norm_num), by decide⟩

/-- Python truthiness of an optional integer: `None` and `0` are falsy. -/
def pyTruthyOptInt : Option ℤ → Bool
  | none => false
  | some n => n != 0

/-- Embeds the cursor determination at the top of
`BigQueryLogCollector._execute` (src/main.py lines 176-183): the
`maxCreationTime` attribute if truthy, else in append mode whatever
`select_oldest_timestamp()` returned (possibly `None`), else the current
wall-clock time in epoch milliseconds. -/
def determineCursor (maxCreationTime : Option ℤ) (append : Bool) (watermark : Option ℤ)
    (now : ℤ) : Option ℤ :=
  if pyTruthyOptInt maxCreationTime then maxCreationTime
  else if append then watermark
  else some now

/-- Spec-side cursor rule exactly as C3 states it: any given override is used,
and append mode falls back to "now" when the watermark query yields nothing. -/
def specCursor (maxCreationTime : Option ℤ) (append : Bool) (watermark : Option ℤ)
    (now : ℤ) : Option ℤ :=
  match maxCreationTime with
  | some m => some m
  | none => if append then some (watermark.getD now) else some now

/-- Spec-side cursor rule amended to what the code does: an override of `0`
is falsy and hence ignored, and append mode with no watermark leaves the
cursor absent (`None`) instead of falling back to "now". -/
def specCursorAmended (maxCreationTime : Option ℤ) (append : Bool) (watermark : Option ℤ)
    (now : ℤ) : Option ℤ :=
  match maxCreationTime with
  | some m => if m = 0 then (if append then watermark else some now) else some m
  | none => if append then watermark else some now

/-- Outcome of the watermark aggregate query as `select_oldest_timestamp`
observes it: the `client.query(...)` call itself may raise (it runs outside
the `try` block), iterating the result may raise (inside the `try`), or the
iteration yields rows whose first column may be SQL NULL. -/
inductive QueryOutcome where
  | issueErr : QueryOutcome
  | iterErr : QueryOutcome
  | rows : List (Option ℤ) → QueryOutcome

/-- Embeds `BigQuery.select_oldest_timestamp` (src/main.py lines 149-157):
the first row yields `int(row[0]) - 1`; a NULL first column makes `int(None)`
raise, caught by the bare `except` returning `None`; no rows falls off the end
of the function, returning `None`; but an exception from `client.query`
itself propagates, because that call precedes the `try` block. -/
def select_oldest_timestamp : QueryOutcome → Except Unit (Option ℤ)
  | .issueErr => .error ()
  | .iterErr => .ok none
  | .rows [] => .ok none
  | .rows (none :: _) => .ok none
  | .rows (some v :: _) => .ok (some (v - 1))

/-- C3 counterexample: in append mode with no override, when the watermark
query yields nothing the code leaves the cursor as `None` — it does not fall
back to the current wall-clock time as the claim states. -/
theorem initial_cursor_counterexample :
    determineCursor none true none 1700000000000 = none ∧
      specCursor none true none 1700000000000 = some 1700000000000 ∧
      (none : Option ℤ) ≠ some 1700000000000 := by
  refine ⟨rfl, rfl, by simp⟩

/-- C3 (amended): the starting cursor is the override when the override is
given and non-zero (a zero override is falsy and ignored); otherwise in
append mode it is exactly the watermark query's result, which may be absent
(no fallback to "now"); otherwise the current wall-clock epoch milliseconds. -/
theorem initial_cursor_precedence (maxCreationTime : Option ℤ) (append : Bool)
    (watermark : Option ℤ) (now : ℤ) :
    determineCursor maxCreationTime append watermark now =
      specCursorAmended maxCreationTime append watermark now := by
  cases maxCreationTime with
  | none => rfl
  | some m =>
    by_cases hm : m = 0 <;>
      simp [determineCursor, specCursorAmended, pyTruthyOptInt, hm]

/-- C4 counterexample: an exception raised while issuing the aggregate query
(the `client.query` call, which precedes the `try`) escalates out of
`select_oldest_timestamp` instead of being swallowed into "nothing". -/
theorem watermark_escalation_counterexample :
    select_oldest_timestamp QueryOutcome.issueErr = Except.error () ∧
      select_oldest_timestamp QueryOutcome.issueErr ≠ Except.ok none := by
  refine ⟨rfl, fun hcontra => Except.noConfusion hcontra⟩

/-- C4 (amended): the lookup returns the table's minimum `logged_epoch` minus
one when the aggregate yields a value; it returns nothing when the table is
empty (no rows or a NULL minimum) or when retrieving the results raises
(those errors are swallowed); an error raised while issuing the query,
however, escalates.  In append mode a watermark of `999` (minimum `1000`
minus one) is selected as the fetch upper bound. -/
theorem watermark_min_minus_one (v : ℤ) (rest : List (Option ℤ)) (now : ℤ) :
    select_oldest_timestamp (QueryOutcome.rows (some v :: rest)) = Except.ok (some (v - 1)) ∧
      select_oldest_timestamp (QueryOutcome.rows []) = Except.ok none ∧
      select_oldest_timestamp (QueryOutcome.rows (none :: rest)) = Except.ok none ∧
      select_oldest_timestamp QueryOutcome.iterErr = Except.ok none ∧
      select_oldest_timestamp (QueryOutcome.rows [some 1000]) = Except.ok (some 999) ∧
      determineCursor none true (some 999) now = some 999 :=
  ⟨rfl, rfl, rfl, rfl, rfl, rfl⟩

/-- The nested `query` statistics dictionary of a raw job entry
(`JobStatistics2` keyword arguments). -/
structure RawQueryStats where
  totalBytesBilled : Option ℤ
  deriving DecidableEq

/-- The `query` variant of a job configuration; the source reads its SQL text
via `job.configuration.query['query']`. -/
structure QueryConfig where
  query : String
  deriving DecidableEq

/-- A raw job entry's `configuration` dictionary as `Job._set_configuration`
reads it (src/main.py lines 86-93): only the presence of the `query` and
`load` keys matters. -/
structure RawConfig where
  query : Option QueryConfig
  load : Option Unit
  deriving DecidableEq

/-- A raw job entry's `statistics` dictionary (`JobStatistics` keyword
arguments, src/main.py lines 44-53). -/
structure RawStatistics where
  creationTime : ℕ
  startTime : ℤ
  endTime : ℤ
  query : Option RawQueryStats
  deriving DecidableEq

/-- One raw entry of the `jobs` array of the listing response, with the
fields `BigQueryLogCollector._execute` consumes. -/
structure RawJob where
  state : Option String
  user_email : Option String
  statistics : RawStatistics
  configuration : RawConfig
  deriving DecidableEq

/-- One row inserted into the destination table, with the eight fixed
columns (src/main.py lines 101 and 206-208). -/
structure Record where
  logged_at : String
  logged_epoch : ℕ
  state : Option String
  query : String
  user_email : Option String
  total_bytes_billed : ℤ
  billed_cost : ℚ
  created_at : String
  deriving DecidableEq

/-- Abnormal terminations of one `_execute` call: the fatal
`raise SystemExit` after a non-success HTTP status (carrying the printed
operator hint), a `KeyError` on the response JSON, or an exception raised
while constructing a `Job` from an entry. -/
inductive ExecErr where
  | authAbort : String → ExecErr
  | keyErr : ExecErr
  | entryErr : ExecErr
  deriving DecidableEq

/-- The jobs-listing HTTP response as `_execute` consumes it: an HTTP status
plus the four JSON keys it reads.  A `none` field models a missing key. -/
structure Response where
  status : ℕ
  etag : Option String
  kind : Option String
  nextPageToken : Option String
  jobs : Option (List RawJob)

/-- The observable outcome of one successful `_execute` call: the records
built from the page, whether `insert_record` was called, and the returned
`last_creation_time`. -/
structure ExecOut where
  records : List Record
  insertCalled : Bool
  lastCreationTime : Option ℤ
  deriving DecidableEq

/-- The operator hint printed before the fatal abort (src/main.py line 191). -/
def authHint : String :=
  "Reset ACCESS_TOKEN if necessary. `$ export ACCESS_TOKEN=\"$(gcloud auth application-default print-access-token)\"`"

/-- The integer `totalBytesBilled` of a job's nested query statistics, as
`JobStatistics.__init__` produces it: keyword value when the `query`
statistics dictionary is present (default `0` when the key is absent),
`0` from the all-defaults `JobStatistics2()` otherwise. -/
def rawTotalBytesBilled : Option RawQueryStats → ℤ
  | some s => s.totalBytesBilled.getD 0
  | none => 0

/-- Processing of one raw entry inside the `_execute` loop (src/main.py lines
202-210): construct the `Job` (which renders `creation_time` — an exception
for a sub-millisecond timestamp propagates — and computes the billed cost at
the default region), then build a record only if the configuration has a
`query` variant. -/
def processJob (created_at : String) (j : RawJob) : Except Unit (Option Record) :=
  match micro_epochtime_to_isoformat j.statistics.creationTime with
  | none => .error ()
  | some iso =>
    match jobStatistics2_billed_cost (rawTotalBytesBilled j.statistics.query)
        "asia-northeast1" with
    | .error e => .error e
    | .ok cost =>
      match j.configuration.query with
      | none => .ok none
      | some qc =>
        .ok (some
          { logged_at := iso
            logged_epoch := j.statistics.creationTime
            state := j.state
            query := qc.query
            user_email := j.user_email
            total_bytes_billed := rawTotalBytesBilled j.statistics.query
            billed_cost := cost
            created_at := created_at })

/-- The record an entry contributes, if any (none also when constructing the
`Job` would raise — in the source that exception aborts the whole page, which
`processJobs` models separately). -/
def entryRecord (created_at : String) (j : RawJob) : Option Record :=
  match processJob created_at j with
  | .ok r => r
  | .error _ => none

/-- The `for j in jobs_list` loop of `_execute`: accumulates records in
order, and overwrites `oldest_timestamp` with every entry's `creationTime`
(starting from the fetch cursor), so the final value is the last entry's
creation time — or the untouched cursor for an empty page. -/
def processJobs (created_at : String) (cursor : Option ℤ) :
    List RawJob → Except Unit (List Record × Option ℤ)
  | [] => .ok ([], cursor)
  | j :: rest =>
    match processJob created_at j with
    | .error e => .error e
    | .ok r =>
      match processJobs created_at (some (j.statistics.creationTime : ℤ)) rest with
      | .error e => .error e
      | .ok (rs, last) =>
        .ok ((match r with | some r0 => r0 :: rs | none => rs), last)

/-- Embeds one `BigQueryLogCollector._execute` call (src/main.py lines
176-214) from the point where the HTTP response is available: a non-success
status (4xx/5xx, what `raise_for_status` raises on) aborts fatally with the
operator hint; otherwise the four response keys are read (a missing one
raises `KeyError`); otherwise the page is processed and inserted unless the
record list is empty or dry-run is set. -/
def execute (cursor : Option ℤ) (dryrun : Bool) (resp : Response) (created_at : String) :
    Except ExecErr ExecOut :=
  if 400 ≤ resp.status then .error (.authAbort authHint)
  else
    match resp.etag, resp.kind, resp.nextPageToken, resp.jobs with
    | some _, some _, some _, some jobs =>
      match processJobs created_at cursor jobs with
      | .error _ => .error .entryErr
      | .ok (records, last) => .ok ⟨records, !records.isEmpty && !dryrun, last⟩
    | _, _, _, _ => .error .keyErr

/-- The next cursor `_execute_handler` uses in infinite mode (src/main.py
line 221): `stats['last_creation_time'] - 1` (a `None` value there would
raise `TypeError`; mapped over the option). -/
def nextCursor (out : ExecOut) : Option ℤ := out.lastCreationTime.map (fun v => v - 1)

/-- Process exit code of a run, as `command()` arranges it: `0` on normal
completion (and on `KeyboardInterrupt`), `1` when an uncaught exception or
the `SystemExit(err)` abort terminates the process. -/
def runExitCode : Except ExecErr ExecOut → ℕ
  | .ok _ => 0
  | .error _ => 1

lemma entryRecord_none_of_no_query (created_at : String) (e : RawJob)
    (hq : e.configuration.query = none) : entryRecord created_at e = none := by
  unfold entryRecord processJob
  rw [hq]
  rcases micro_epochtime_to_isoformat e.statistics.creationTime with _ | iso
  · rfl
  · rcases jobStatistics2_billed_cost (rawTotalBytesBilled e.statistics.query)
      "asia-northeast1" with e1 | c
    · rfl
    · rfl

lemma processJobs_ok_records (created_at : String) :
    ∀ (jobs : List RawJob) (cursor : Option ℤ) (out : List Record × Option ℤ),
      processJobs created_at cursor jobs = .ok out →
      out.1 = jobs.filterMap (entryRecord created_at) := by
  intro jobs
  induction jobs with
  | nil =>
    intro cursor out hok
    simp only [processJobs] at hok
    injection hok with h
    rw [← h]
    rfl
  | cons j rest ih =>
    intro cursor out hok
    simp only [processJobs] at hok
    cases hpj : processJob created_at j with
    | error e => rw [hpj] at hok; exact Except.noConfusion hok
    | ok r =>
      rw [hpj] at hok
      cases hrest : processJobs created_at (some (j.statistics.creationTime : ℤ)) rest with
      | error e => rw [hrest] at hok; exact Except.noConfusion hok
      | ok pr =>
        obtain ⟨rs, last⟩ := pr
        rw [hrest] at hok
        injection hok with h
        rw [← h]
        have her : entryRecord created_at j = r := by
          unfold entryRecord
          rw [hpj]
        have htl := ih (some (j.statistics.creationTime : ℤ)) (rs, last) hrest
        cases r <;> simp [List.filterMap_cons, her, htl.symm]

lemma processJobs_ok_last (created_at : String) :
    ∀ (jobs : List RawJob) (cursor : Option ℤ) (out : List Record × Option ℤ),
      processJobs created_at cursor jobs = .ok out →
      out.2 = jobs.foldl (fun _ j => some ((j.statistics.creationTime : ℤ))) cursor := by
  intro jobs
  induction jobs with
  | nil =>
    intro cursor out hok
    simp only [processJobs] at hok
    injection hok with h
    rw [← h]
    rfl
  | cons j rest ih =>
    intro cursor out hok
    simp only [processJobs] at hok
    cases hpj : processJob created_at j with
    | error e => rw [hpj] at hok; exact Except.noConfusion hok
    | ok r =>
      rw [hpj] at hok
      cases hrest : processJobs created_at (some (j.statistics.creationTime : ℤ)) rest with
      | error e => rw [hrest] at hok; exact Except.noConfusion hok
      | ok pr =>
        obtain ⟨rs, last⟩ := pr
        rw [hrest] at hok
        injection hok with h
        rw [← h, List.foldl_cons]
        exact ih (some (j.statistics.creationTime : ℤ)) (rs, last) hrest

lemma foldl_last_creation :
    ∀ (jobs : List RawJob), jobs ≠ [] → ∀ (cursor : Option ℤ),
      jobs.foldl (fun _ j => some ((j.statistics.creationTime : ℤ))) cursor =
        jobs.getLast?.map (fun j => (j.statistics.creationTime : ℤ)) := by
  intro jobs
  induction jobs with
  | nil => intro h; exact absurd rfl h
  | cons j rest ih =>
    intro _ cursor
    cases rest with
    | nil => rfl
    | cons k tl =>
      rw [List.foldl_cons, ih (by simp) (some ((j.statistics.creationTime : ℤ))),
        List.getLast?_cons_cons]

/-- A minimal load-job entry (configuration has a `load` key but no `query`
key). -/
def loadJob : RawJob :=
  { state := some "DONE"
    user_email := none
    statistics := { creationTime := 2000, startTime := 0, endTime := 0, query := none }
    configuration := { query := none, load := some () } }

/-- A minimal query-job entry with the given creation time. -/
def sampleJob (t : ℕ) : RawJob :=
  { state := some "DONE"
    user_email := some "u@example.com"
    statistics :=
      { creationTime := t, startTime := 0, endTime := 0,
        query := some { totalBytesBilled := some 1024 } }
    configuration := { query := some { query := "SELECT 1" }, load := none } }

/-- A successful listing response whose page has creation times
`[5000, 2000, 9000]` (minimum `2000`, last entry `9000`). -/
def cexResp : Response :=
  { status := 200, etag := some "e", kind := some "k", nextPageToken := some "n",
    jobs := some [sampleJob 5000, sampleJob 2000, sampleJob 9000] }

/-- C1 counterexample: on a page with creation times `[5000, 2000, 9000]`
the next cursor computed for infinite mode is `8999` (the last entry's
creation time minus one), not `1999` (the page minimum minus one) as the
claim requires. -/
theorem cursor_advance_counterexample :
    Except.map nextCursor (execute (some 1000000) false cexResp "c") =
      Except.ok (some 8999) ∧ (some (8999 : ℤ) : Option ℤ) ≠ some 1999 := by
  refine ⟨rfl, by simp⟩

/-- C1 (amended): for every fetched page containing at least one job entry
(every entry of which is processed without an exception), the next cursor
used in infinite mode equals the creation time of the page's final entry
minus one — the tracked value is overwritten by each entry in order, whether
or not the entry produced a record, so the last entry wins. -/
theorem cursor_advance_last_entry (cursor : Option ℤ) (dryrun : Bool) (resp : Response)
    (created_at : String) (jobs : List RawJob) (out : ExecOut)
    (hjobs : resp.jobs = some jobs) (hne : jobs ≠ [])
    (hok : execute cursor dryrun resp created_at = .ok out) :
    nextCursor out = jobs.getLast?.map (fun j => (j.statistics.creationTime : ℤ) - 1) := by
  obtain ⟨st, et, kd, npt, jb⟩ := resp
  simp only at hjobs
  subst hjobs
  unfold execute at hok
  by_cases hst : 400 ≤ st
  · rw [if_pos hst] at hok
    exact Except.noConfusion hok
  · rw [if_neg hst] at hok
    rcases et with _ | e0
    · exact Except.noConfusion hok
    rcases kd with _ | k0
    · exact Except.noConfusion hok
    rcases npt with _ | n0
    · exact Except.noConfusion hok
    simp only at hok
    cases hpj : processJobs created_at cursor jobs with
    | error e1 => rw [hpj] at hok; exact Except.noConfusion hok
    | ok pr =>
      obtain ⟨records, last⟩ := pr
      rw [hpj] at hok
      injection hok with h
      rw [← h]
      have hlast := processJobs_ok_last created_at jobs cursor (records, last) hpj
      simp only at hlast
      unfold nextCursor
      simp only [hlast, foldl_last_creation jobs hne cursor, Option.map_map]
      rfl

/-- C1 witness: a one-entry page (a load job with creation time `2000`)
advances the infinite-mode cursor to `1999`. -/
theorem cursor_advance_last_entry_witness :
    nextCursor ⟨[], false, some 2000⟩ =
      [loadJob].getLast?.map (fun j => (j.statistics.creationTime : ℤ) - 1) :=
  cursor_advance_last_entry (some 5) false
    ⟨200, some "e", some "k", some "n", some [loadJob]⟩ "c" [loadJob]
    ⟨[], false, some 2000⟩ rfl (by simp) rfl

/-- C6: a raw entry whose configuration has no `query` variant contributes no
record: its `entryRecord` is `none`, and the records a successfully processed
page produces are exactly the `filterMap` of `entryRecord` over the page. -/
theorem non_query_job_skipped (created_at : String) (cursor : Option ℤ)
    (jobs : List RawJob) (out : List Record × Option ℤ) (e : RawJob)
    (hmem : e ∈ jobs) (hq : e.configuration.query = none)
    (hok : processJobs created_at cursor jobs = .ok out) :
    entryRecord created_at e = none ∧
      out.1 = jobs.filterMap (entryRecord created_at) :=
  ⟨entryRecord_none_of_no_query created_at e hq,
    processJobs_ok_records created_at jobs cursor out hok⟩

/-- C6 witness: a page consisting of one load job yields an empty record
batch. -/
theorem non_query_job_skipped_witness :
    entryRecord "c" loadJob = none ∧
      (([], some 2000) : List Record × Option ℤ).1 = [loadJob].filterMap (entryRecord "c") :=
  non_query_job_skipped "c" (some 5) [loadJob] ([], some 2000) loadJob (by simp) rfl rfl

/-- C7: a non-success (4xx/5xx) HTTP status on the jobs-listing response
aborts the run before any entry is normalized or inserted: the call fails
with the fatal abort carrying the credential-refresh hint, and the process
exit code is `1`. -/
theorem http_error_aborts (cursor : Option ℤ) (dryrun : Bool) (resp : Response)
    (created_at : String) (h : 400 ≤ resp.status) :
    execute cursor dryrun resp created_at = .error (.authAbort authHint) ∧
      runExitCode (execute cursor dryrun resp created_at) = 1 := by
  unfold execute
  rw [if_pos h]
  exact ⟨rfl, rfl⟩

/-- C7 witness: a `401` response aborts fatally with exit code `1`. -/
theorem http_error_aborts_witness :
    execute none false ⟨401, none, none, none, none⟩ "c" = .error (.authAbort authHint) ∧
      runExitCode (execute none false ⟨401, none, none, none, none⟩ "c") = 1 :=
  http_error_aborts none false ⟨401, none, none, none, none⟩ "c" (by decide)

/-- C10: a successful listing response lacking any one of the keys `etag`,
`kind`, `nextPageToken` or `jobs` raises `KeyError` before any entry is
normalized. -/
theorem missing_key_raises (cursor : Option ℤ) (dryrun : Bool) (resp : Response)
    (created_at : String) (hst : resp.status < 400)
    (hmiss : resp.etag = none ∨ resp.kind = none ∨ resp.nextPageToken = none ∨
      resp.jobs = none) :
    execute cursor dryrun resp created_at = .error .keyErr := by
  obtain ⟨st, et, kd, npt, jb⟩ := resp
  simp only at hst hmiss
  unfold execute
  dsimp only
  rw [if_neg (by omega)]
  rcases et with _ | e0 <;> rcases kd with _ | k0 <;> rcases npt with _ | n0 <;>
    rcases jb with _ | j0 <;> simp_all

/-- C10 witness: a `200` response with no `etag` key raises before the page
is processed. -/
theorem missing_key_raises_witness :
    execute none false ⟨200, none, some "k", some "n", some []⟩ "c" = .error .keyErr :=
  missing_key_raises none false ⟨200, none, some "k", some "n", some []⟩ "c" (by decide)
    (Or.inl rfl)

/-- C2 counterexample: at `b = 3 * 2 ^ 36` bytes the exact cost is
`1.125` currency units; Python `round` (ties to even) yields `1.12`, while
the claimed "standard rounding" yields `1.13`. -/
theorem cost_rounding_counterexample :
    calculate_billed_cost (3 * 2 ^ 36) "asia-northeast1" = Except.ok (28 / 25) ∧
      specCostStd (3 * 2 ^ 36) = 113 / 100 ∧ (28 / 25 : ℚ) ≠ 113 / 100 := by
  refine ⟨?_, ?_, by norm_num⟩
  · norm_num [calculate_billed_cost, pyRound2, roundHalfEven]
  · norm_num [specCostStd]

/-- C2 (amended): for every non-negative byte count `b` the cost computed for
the default region equals `6.0 * b / 2 ^ 40` rounded to two decimal places
with ties rounded to even (Python's `round`, not "standard" half-up
rounding); in particular `b = 2 ^ 40` yields `6.00`, `b = 0` yields `0.00`,
and the result is never negative. -/
theorem cost_rounding_half_even (b : ℕ) :
    calculate_billed_cost (b : ℤ) "asia-northeast1" = Except.ok (specCostEven b) ∧
      0 ≤ specCostEven b ∧ specCostEven (2 ^ 40) = 6 ∧ specCostEven 0 = 0 := by
  refine ⟨?_, ?_, by norm_num [specCostEven, roundHalfEven],
    by norm_num [specCostEven, roundHalfEven]⟩
  · unfold calculate_billed_cost specCostEven pyRound2
    rw [if_pos rfl]
    norm_num
  · unfold specCostEven
    have h0 : (0 : ℚ) ≤ 6 * (b : ℚ) / 2 ^ 40 * 100 := by positivity
    have := roundHalfEven_nonneg _ h0
    have hc : (0 : ℚ) ≤ (roundHalfEven (6 * (b : ℚ) / 2 ^ 40 * 100) : ℚ) := by
      exact_mod_cast this
    positivity

/-- C8: for every region outside the price table, computing the cost of any
positive billed-byte count raises (`per_terabyte_cost` is never assigned, so
the `return` line fails with `UnboundLocalError`) instead of returning a
defaulted price. -/
theorem unknown_region_fails (region : String) (b : ℤ)
    (h1 : region ≠ "asia-northeast1") (h2 : region ≠ "us-west1") (hb : 0 < b) :
    calculate_billed_cost b region = Except.error () := by
  unfold calculate_billed_cost
  rw [if_neg h1, if_neg h2]

/-- C8 witness: region `europe-west1` with one billed byte fails. -/
theorem unknown_region_fails_witness :
    calculate_billed_cost 1 "europe-west1" = Except.error () :=
  unknown_region_fails "europe-west1" 1 (by decide) (by decide) (by decide)

/-- C9: when the billed-byte count of the nested query statistics is zero or
the statistics are absent, the computed `billed_cost` is exactly `0.0` for
every region — the price table is never consulted, so even an unknown region
cannot make a zero-byte entry fail. -/
theorem zero_bytes_zero_cost (region : String) (q : Option RawQueryStats)
    (hz : rawTotalBytesBilled q = 0) :
    jobStatistics2_billed_cost (rawTotalBytesBilled q) region = Except.ok 0 := by
  rw [hz]
  unfold jobStatistics2_billed_cost
  simp

/-- C9 witness: absent query statistics with an out-of-table region still
yield cost `0.0`. -/
theorem zero_bytes_zero_cost_witness :
    jobStatistics2_billed_cost (rawTotalBytesBilled none) "europe-west2" = Except.ok 0 :=
  zero_bytes_zero_cost "europe-west2" none rfl
